import Mathlib

/-!
Shallow embedding of `src/gpuspec.py`: the GUPPI RAW ingestion block
(`GuppiRawSourceBlock.on_sequence` / `GuppiRawSourceBlock.on_data`), the helper
functions `get_with_default` and `mjd2unix`, and the axis-slicing transform
block `GrabFirstBlock`.

Modelling conventions:
* Python numbers (ints and floats) are modelled as exact rationals `ℚ`;
  a Python division that would raise `ZeroDivisionError` on a zero divisor
  is modelled by an explicit zero test producing an error value.
* Python exceptions are modelled by the `Except` monad with the error
  type `PyErr` below.
* The byte stream owned by the block is modelled by a file length, a read
  position, and an open/closed flag; `reader.readinto(b)` on a regular file
  reads `min (len b) (remaining bytes)` bytes.
-/

/-- Python exceptions raised by the code in `src/gpuspec.py`. -/
inductive PyErr where
  /-- `AssertionError` from `assert(nbit in set([4,8,16,32,64]))`
      (line 32); the spec's `MalformedHeader`. -/
  | malformedHeader
  /-- `TypeError` from `get_with_default(ihdr, 'RA') * (24./360.)`
      (line 61) when the key `RA` is absent, so the default `None`
      is multiplied by a float. -/
  | typeError
  /-- `ZeroDivisionError` from a division with a zero divisor. -/
  | zeroDivision
  /-- `IOError("Block header is truncated")` (line 90); the spec's
      `IOTruncated`. -/
  | ioTruncated
deriving DecidableEq, Repr

/-- A parsed GUPPI RAW header, as returned by `guppi_raw.read_header`:
the eleven numeric keys the tensor derivation reads, plus the optional
side-metadata keys accessed through `get_with_default`. -/
structure RawHeader where
  NBITS : ℚ
  OBSNCHAN : ℚ
  OBSBW : ℚ
  OBSFREQ : ℚ
  PKTIDX : ℚ
  PKTSIZE : ℚ
  BLOCSIZE : ℚ
  NTIME : ℚ
  NPOL : ℚ
  STT_IMJD : ℚ
  STT_SMJD : ℚ
  AZ : Option ℚ
  ZA : Option ℚ
  RA : Option ℚ
  DEC : Option ℚ
  CHAN_DM : Option ℚ
  SRC_NAME : Option String
  TELESCOP : Option String
  BACKEND : Option String
deriving DecidableEq, Repr

/-- The `'_tensor'` sub-dictionary built at lines 48-58. -/
structure Tensor where
  dtype : String
  shape : List ℚ
  labels : List String
  scales : List (Option (ℚ × ℚ))
  units : List (Option String)
deriving DecidableEq, Repr

/-- The output sequence header dictionary `ohdr` built at lines 47-78. -/
structure OHdr where
  tensor : Tensor
  az_start : Option ℚ
  za_start : Option ℚ
  raj : ℚ
  dej : Option ℚ
  source_name : Option String
  refdm : Option ℚ
  refdm_units : String
  telescope : Option String
  machine : Option String
  rawdatafile : String
  coord_frame : String
  time_tag : ℤ
  name : String
deriving DecidableEq, Repr

/-- The mutable per-stream state of `GuppiRawSourceBlock`: the two Boolean
instance fields `always_return_0` and `already_read_header`, the length of
`self.header_buf`, and the byte-reader state (read position, total file
length, open flag). -/
structure StreamState where
  alwaysReturn0 : Bool
  alreadyReadHeader : Bool
  headerBufLen : Nat
  pos : Nat
  fileLen : Nat
  readerOpen : Bool
deriving DecidableEq, Repr

/-- `mjd2unix` (lines 15-16): `(mjd - 40587) * 86400`. -/
def mjd2unix (mjd : ℚ) : ℚ :=
  (mjd - 40587) * 86400

/-- Python 3 `round` on an exact value: round half to even
(only the claim-vs-code comparison matters; both sides use this
function, applied to `tstart_unix * 2**32` at line 74). -/
def pyRound (q : ℚ) : ℤ :=
  if q - ⌊q⌋ = 1 / 2 then (if ⌊q⌋ % 2 = 0 then ⌊q⌋ else ⌊q⌋ + 1) else round q

/-- `df_MHz = bw_MHz / nchan` (line 36). -/
def df_MHz (h : RawHeader) : ℚ :=
  h.OBSBW / h.OBSNCHAN

/-- `f0_MHz = cfreq_MHz - 0.5*(nchan-1)*df_MHz` (line 37). -/
def f0_MHz (h : RawHeader) : ℚ :=
  h.OBSFREQ - (1 / 2) * (h.OBSNCHAN - 1) * df_MHz h

/-- `dt_s = 1. / df_MHz / 1e6` (line 39). -/
def dt_s (h : RawHeader) : ℚ :=
  1 / df_MHz h / 1000000

/-- `byte_offset = ihdr['PKTIDX'] * ihdr['PKTSIZE']` (line 41). -/
def byte_offset (h : RawHeader) : ℚ :=
  h.PKTIDX * h.PKTSIZE

/-- `frame_nbyte = ihdr['BLOCSIZE'] / ihdr['NTIME']` (line 42). -/
def frame_nbyte_q (h : RawHeader) : ℚ :=
  h.BLOCSIZE / h.NTIME

/-- `bytes_per_sec = frame_nbyte / dt_s` (line 43). -/
def bytes_per_sec (h : RawHeader) : ℚ :=
  frame_nbyte_q h / dt_s h

/-- `offset_secs = byte_offset / bytes_per_sec` (line 44). -/
def offset_secs (h : RawHeader) : ℚ :=
  byte_offset h / bytes_per_sec h

/-- `tstart_mjd = ihdr['STT_IMJD'] + (ihdr['STT_SMJD'] + offset_secs) / 86400.` (line 45). -/
def tstart_mjd (h : RawHeader) : ℚ :=
  h.STT_IMJD + (h.STT_SMJD + offset_secs h) / 86400

/-- `tstart_unix = mjd2unix(tstart_mjd)` (line 46). -/
def tstart_unix (h : RawHeader) : ℚ :=
  mjd2unix (tstart_mjd h)

/-- `time_tag = int(round(tstart_unix * 2**32))` (line 74). -/
def time_tag (h : RawHeader) : ℤ :=
  pyRound (tstart_unix h * 2 ^ 32)

/-- `'ci' + str(nbit)` (line 49), evaluated only after the line-32 assert,
so only the five legal bit widths need a digit string. -/
def ciDtype (nbit : ℚ) : String :=
  "ci" ++ (if nbit = 4 then "4" else if nbit = 8 then "8" else if nbit = 16 then "16"
    else if nbit = 32 then "32" else if nbit = 64 then "64" else "")

/-- The `'_tensor'` value built at lines 48-58. -/
def derive_tensor (h : RawHeader) : Tensor where
  dtype := ciDtype h.NBITS
  shape := [-1, h.OBSNCHAN, h.NTIME, h.NPOL]
  labels := ["time", "channel", "fine_time", "pol"]
  scales := [some (tstart_unix h, |dt_s h| * h.NTIME),
    some (f0_MHz h, df_MHz h),
    some (0, dt_s h),
    none]
  units := [some "s", some "MHz", some "s", none]

/-- `GuppiRawSourceBlock.on_sequence` (lines 26-79).  `guppi_raw.read_header`
is external to this repository; it is modelled as yielding the parsed header
`h` after consuming `header_size` bytes (the code measures `header_size` with
two `reader.tell()` calls around it and never seeks back).  The zero tests
mirror, in source order, the Python divisions that raise `ZeroDivisionError`:
`OBSBW / nchan`, `1. / df_MHz`, `BLOCSIZE / NTIME`, `frame_nbyte / dt_s`
(checked via `dt_s`), and `byte_offset / bytes_per_sec`.  The `RA` match
mirrors `get_with_default(ihdr, 'RA') * (24./360.)`, which raises `TypeError`
when `RA` is absent.  On success the instance fields are updated as at lines
30 and 76: `header_buf` is sized to `header_size` and
`already_read_header` is set to `True`. -/
def on_sequence (h : RawHeader) (header_size : Nat) (sourcename : String)
    (st : StreamState) : Except PyErr (OHdr × StreamState) :=
  if h.NBITS ∈ ([4, 8, 16, 32, 64] : List ℚ) then
    if h.OBSNCHAN = 0 then Except.error PyErr.zeroDivision
    else if df_MHz h = 0 then Except.error PyErr.zeroDivision
    else if h.NTIME = 0 then Except.error PyErr.zeroDivision
    else if dt_s h = 0 then Except.error PyErr.zeroDivision
    else if bytes_per_sec h = 0 then Except.error PyErr.zeroDivision
    else
      match h.RA with
      | none => Except.error PyErr.typeError
      | some r =>
        Except.ok
          ({ tensor := derive_tensor h
             az_start := h.AZ
             za_start := h.ZA
             raj := r * (24 / 360)
             dej := h.DEC
             source_name := h.SRC_NAME
             refdm := h.CHAN_DM
             refdm_units := "pc cm^-3"
             telescope := h.TELESCOP
             machine := h.BACKEND
             rawdatafile := sourcename
             coord_frame := "topocentric"
             time_tag := time_tag h
             name := sourcename },
           { st with
             alreadyReadHeader := true
             headerBufLen := header_size
             pos := st.pos + header_size })
  else Except.error PyErr.malformedHeader

/-- Lines 92-103 of `on_data`: `nbyte = reader.readinto(odata)` reads
`min buflen remaining` bytes; if `nbyte % ospan.frame_nbyte` is nonzero the
reader is closed, `always_return_0` is set and zero frames are reported
(lines 95-99); otherwise `nbyte // ospan.frame_nbyte` frames are reported
(lines 100-103). -/
def fill_data (st : StreamState) (frame_nbyte buflen : Nat) :
    Except PyErr (Nat × StreamState) :=
  let nbyte := min buflen (st.fileLen - st.pos)
  if nbyte % frame_nbyte ≠ 0 then
    Except.ok (0, { st with
      pos := st.pos + nbyte
      readerOpen := false
      alwaysReturn0 := true })
  else
    Except.ok (nbyte / frame_nbyte, { st with pos := st.pos + nbyte })

/-- `GuppiRawSourceBlock.on_data` (lines 80-103).  The early return at
lines 81-82 reports zero frames while `always_return_0` holds.  The
header-skip branch (lines 83-91) runs only when `already_read_header` is
false: `reader.readinto(self.header_buf)` reads
`min headerBufLen remaining` bytes; zero bytes is EOF (report zero frames),
a short read raises `IOError`, and a full read falls through to the data
read after the (no-op) reassignment `self.already_read_header = False` at
line 91. -/
def on_data (st : StreamState) (frame_nbyte buflen : Nat) :
    Except PyErr (Nat × StreamState) :=
  if st.alwaysReturn0 then Except.ok (0, st)
  else if st.alreadyReadHeader = false then
    let nbyte := min st.headerBufLen (st.fileLen - st.pos)
    if nbyte = 0 then Except.ok (0, { st with pos := st.pos + nbyte })
    else if nbyte < st.headerBufLen then Except.error PyErr.ioTruncated
    else fill_data
      { st with pos := st.pos + nbyte, alreadyReadHeader := false }
      frame_nbyte buflen
  else fill_data st frame_nbyte buflen

/-- A sequence of fill calls on one stream: each list entry is the
`(frame_nbyte, buffer length)` pair offered to `on_data`; the reported
frame counts are collected in order. -/
def runCalls (st : StreamState) : List (Nat × Nat) → Except PyErr (List Nat × StreamState)
  | [] => Except.ok ([], st)
  | c :: cs =>
    match on_data st c.1 c.2 with
    | Except.error e => Except.error e
    | Except.ok (n, st1) =>
      match runCalls st1 cs with
      | Except.error e => Except.error e
      | Except.ok (ns, st2) => Except.ok (n :: ns, st2)

/-- `GrabFirstBlock.on_sequence` (lines 116-120), value view:
`ohdr = deepcopy(ihdr); ohdr['_tensor']['shape'][3] = 1`.  The axis index 3
is hard-coded in the source (the constructor's `axis` argument is stored but
never used). -/
def grabFirst_on_sequence (ih : OHdr) : OHdr :=
  { ih with tensor := { ih.tensor with shape := ih.tensor.shape.set 3 1 } }

/-- Modelled from the spec: `bf.map` (the bifrost kernel engine executing the
index expression `"b(i, j, k, l) = a(i, j, k, l)"` at lines 125-130) is not
part of this repository's source.  Per the expression and the spec's
element-wise copy contract, every output element whose indices lie inside the
output span's shape receives the input element at the same indices; elements
outside the iterated shape keep their previous contents. -/
def bfMapCopy4 (s0 s1 s2 s3 : Nat) (a b : Nat → Nat → Nat → Nat → ℤ) :
    Nat → Nat → Nat → Nat → ℤ :=
  fun i j k l => if i < s0 ∧ j < s1 ∧ k < s2 ∧ l < s3 then a i j k l else b i j k l

/-- `GrabFirstBlock.on_data` (lines 121-130): run `bf.map` with
`"b(i, j, k, l) = a(i, j, k, l)"` over `ospan.data.shape`, reading
`ispan.data` and writing `ospan.data`. -/
def grabFirst_on_data (oshape : Nat × Nat × Nat × Nat)
    (idata odata : Nat → Nat → Nat → Nat → ℤ) : Nat → Nat → Nat → Nat → ℤ :=
  bfMapCopy4 oshape.1 oshape.2.1 oshape.2.2.1 oshape.2.2.2 idata odata

/-- Placeholder tensor used as the lookup default of the object store. -/
def dfltTensor : Tensor :=
  { dtype := "", shape := [], labels := [], scales := [], units := [] }

/-- Python object semantics for the `'_tensor'` sub-dictionary: a store of
tensor objects addressed by position; a header holds an address into it. -/
def deepcopy_tensor (hp : List Tensor) (addr : Nat) : List Tensor × Nat :=
  (hp ++ [hp.getD addr dfltTensor], hp.length)

/-- The in-place mutation `ohdr['_tensor']['shape'][3] = 1` (line 119) on
the tensor object at `addr`. -/
def setShapeEntry (hp : List Tensor) (addr : Nat) : List Tensor :=
  hp.set addr
    { hp.getD addr dfltTensor with shape := (hp.getD addr dfltTensor).shape.set 3 1 }

/-- `GrabFirstBlock.on_sequence` (lines 116-120), object-store view:
`deepcopy` allocates a fresh copy of the input header's tensor object, and
the shape mutation is applied to the copy's address, which is returned as
the output header's tensor reference. -/
def grabFirst_on_sequence_heap (hp : List Tensor) (ihAddr : Nat) :
    List Tensor × Nat :=
  let pr := deepcopy_tensor hp ihAddr
  (setShapeEntry pr.1 pr.2, pr.2)

/-- A concrete valid header: `NBITS=8`, `OBSNCHAN=2`, `OBSBW=10`,
`OBSFREQ=1000`, `PKTIDX=0`, `PKTSIZE=1`, `BLOCSIZE=16`, `NTIME=4`, `NPOL=2`,
`STT_IMJD=40587`, `STT_SMJD=0`, with `RA` present. -/
def hdrC4 : RawHeader where
  NBITS := 8
  OBSNCHAN := 2
  OBSBW := 10
  OBSFREQ := 1000
  PKTIDX := 0
  PKTSIZE := 1
  BLOCSIZE := 16
  NTIME := 4
  NPOL := 2
  STT_IMJD := 40587
  STT_SMJD := 0
  AZ := none
  ZA := none
  RA := some 180
  DEC := none
  CHAN_DM := none
  SRC_NAME := none
  TELESCOP := none
  BACKEND := none

/-- The same header with `RA` (and all other pointing fields) absent. -/
def hdrC5 : RawHeader :=
  { hdrC4 with RA := none }

/-- A header agreeing with `hdrC4` on the eleven numeric keys but differing
in the optional side-metadata keys. -/
def hdrC10 : RawHeader :=
  { hdrC4 with RA := some 90, AZ := some 1, SRC_NAME := some "other" }

/-- Equality of `Except` values is decidable componentwise. -/
instance {e a : Type} [DecidableEq e] [DecidableEq a] : DecidableEq (Except e a) :=
  fun x y =>
    match x, y with
    | Except.ok u, Except.ok v =>
      if h : u = v then isTrue (by rw [h]) else isFalse (by simp [h])
    | Except.error u, Except.error v =>
      if h : u = v then isTrue (by rw [h]) else isFalse (by simp [h])
    | Except.ok _, Except.error _ => isFalse (by simp)
    | Except.error _, Except.ok _ => isFalse (by simp)

/-- A concrete input header for the axis-slicing transform. -/
def ihdrC8 : OHdr where
  tensor :=
    { dtype := "f32"
      shape := [5, 2, 4, 2]
      labels := ["time", "channel", "fine_time", "pol"]
      scales := [none, none, none, none]
      units := [none, none, none, none] }
  az_start := none
  za_start := none
  raj := 0
  dej := none
  source_name := none
  refdm := none
  refdm_units := "pc cm^-3"
  telescope := none
  machine := none
  rawdatafile := "f"
  coord_frame := "topocentric"
  time_tag := 0
  name := "f"

/-- A concrete tensor object for the object-store model. -/
def tC9 : Tensor where
  dtype := "ci8"
  shape := [-1, 2, 4, 2]
  labels := ["time", "channel", "fine_time", "pol"]
  scales := [none, none, none, none]
  units := [none, none, none, none]

/-- Helper: with a valid `NBITS`, nonzero divisors and a present `RA`,
`on_sequence` evaluates to its success value. -/
lemma on_sequence_eq_ok (h : RawHeader) (hs : Nat) (sn : String) (st : StreamState)
    (r : ℚ) (hmem : h.NBITS ∈ ([4, 8, 16, 32, 64] : List ℚ))
    (hnchan : h.OBSNCHAN ≠ 0) (hbw : h.OBSBW ≠ 0) (hntime : h.NTIME ≠ 0)
    (hbloc : h.BLOCSIZE ≠ 0) (hra : h.RA = some r) :
    on_sequence h hs sn st = Except.ok
      ({ tensor := derive_tensor h
         az_start := h.AZ
         za_start := h.ZA
         raj := r * (24 / 360)
         dej := h.DEC
         source_name := h.SRC_NAME
         refdm := h.CHAN_DM
         refdm_units := "pc cm^-3"
         telescope := h.TELESCOP
         machine := h.BACKEND
         rawdatafile := sn
         coord_frame := "topocentric"
         time_tag := time_tag h
         name := sn },
       { st with
         alreadyReadHeader := true
         headerBufLen := hs
         pos := st.pos + hs }) := by
  have hdf : df_MHz h ≠ 0 := div_ne_zero hbw hnchan
  have hdt : dt_s h ≠ 0 := div_ne_zero (one_div_ne_zero hdf) (by norm_num)
  have hfq : frame_nbyte_q h ≠ 0 := div_ne_zero hbloc hntime
  have hbps : bytes_per_sec h ≠ 0 := div_ne_zero hfq hdt
  unfold on_sequence
  rw [if_pos hmem, if_neg hnchan, if_neg hdf, if_neg hntime, if_neg hdt,
    if_neg hbps, hra]

/-- Helper: with a valid `NBITS` and nonzero divisors but `RA` absent,
`on_sequence` fails with the modelled `TypeError`. -/
lemma on_sequence_eq_typeError (h : RawHeader) (hs : Nat) (sn : String)
    (st : StreamState) (hmem : h.NBITS ∈ ([4, 8, 16, 32, 64] : List ℚ))
    (hnchan : h.OBSNCHAN ≠ 0) (hbw : h.OBSBW ≠ 0) (hntime : h.NTIME ≠ 0)
    (hbloc : h.BLOCSIZE ≠ 0) (hra : h.RA = none) :
    on_sequence h hs sn st = Except.error PyErr.typeError := by
  have hdf : df_MHz h ≠ 0 := div_ne_zero hbw hnchan
  have hdt : dt_s h ≠ 0 := div_ne_zero (one_div_ne_zero hdf) (by norm_num)
  have hfq : frame_nbyte_q h ≠ 0 := div_ne_zero hbloc hntime
  have hbps : bytes_per_sec h ≠ 0 := div_ne_zero hfq hdt
  unfold on_sequence
  rw [if_pos hmem, if_neg hnchan, if_neg hdf, if_neg hntime, if_neg hdt,
    if_neg hbps, hra]

/-- Helper: with an invalid `NBITS` the line-32 assert fires first. -/
lemma on_sequence_eq_malformed (h : RawHeader) (hs : Nat) (sn : String)
    (st : StreamState) (hmem : h.NBITS ∉ ([4, 8, 16, 32, 64] : List ℚ)) :
    on_sequence h hs sn st = Except.error PyErr.malformedHeader := by
  unfold on_sequence
  rw [if_neg hmem]

/-- Helper: a stream that is terminal — either the `always_return_0` flag is
set, or the read position has reached the end of the file — reports zero
frames on any fill call with a positive frame size, and is left unchanged. -/
lemma on_data_of_terminal (st : StreamState) (fnb buf : Nat) (_hfnb : 0 < fnb)
    (ht : st.alwaysReturn0 = true ∨ st.fileLen ≤ st.pos) :
    on_data st fnb buf = Except.ok (0, st) := by
  rcases ht with ht | ht
  · unfold on_data
    rw [ht]
    simp
  · obtain ⟨a0, arh, hbl, p, fl, ro⟩ := st
    simp only at ht
    have hrem : fl - p = 0 := Nat.sub_eq_zero_of_le ht
    rcases a0 with _ | _
    · rcases arh with _ | _
      · unfold on_data
        simp [hrem]
      · unfold on_data fill_data
        simp [hrem]
    · unfold on_data
      simp

/-- C1: once a fill call on a stream reports zero frames because of a
trailing short block (which sets `always_return_0` on the returned state) or
end-of-file (the returned state's read position has reached the file length),
every subsequent fill call on that same stream reports zero frames: the
stream never again reports a nonzero frame count. -/
theorem no_resurrection (st0 st1 : StreamState) (fnb buf : Nat)
    (calls : List (Nat × Nat))
    (hzero : on_data st0 fnb buf = Except.ok (0, st1))
    (hcause : st1.alwaysReturn0 = true ∨ st1.fileLen ≤ st1.pos)
    (hpos : ∀ c ∈ calls, 0 < c.1) :
    runCalls st1 calls = Except.ok (List.replicate calls.length 0, st1) := by
  clear hzero
  induction calls with
  | nil => rfl
  | cons c cs ih =>
    have h1 := on_data_of_terminal st1 c.1 c.2 (hpos c (List.mem_cons_self c cs)) hcause
    have h2 := ih (fun d hd => hpos d (List.mem_cons_of_mem c hd))
    simp only [runCalls, h1, h2, List.length_cons, List.replicate_succ]

/-- Witness for C1: a 10-byte file read with frame size 3 hits a trailing
short block and reports zero frames; the two subsequent calls both report
zero frames. -/
theorem no_resurrection_witness :
    runCalls ⟨true, true, 3, 10, 10, false⟩ [(2, 4), (5, 1)] =
      Except.ok (List.replicate 2 0, ⟨true, true, 3, 10, 10, false⟩) :=
  no_resurrection ⟨false, true, 3, 0, 10, true⟩ ⟨true, true, 3, 10, 10, false⟩
    3 10 [(2, 4), (5, 1)] rfl (by decide) (by decide)

/-- C2: a fill call in the streaming state (`always_return_0` unset, header
already read) whose data read returns a nonzero byte count `n` that is not a
multiple of `frame_nbyte` discards the partial bytes (the read position still
advances by `n`), closes the reader, sets the terminal `always_return_0`
flag, and reports zero frames — as a normal return, not an error. -/
theorem trailing_short_block (st : StreamState) (fnb buf n : Nat)
    (h0 : st.alwaysReturn0 = false) (h1 : st.alreadyReadHeader = true)
    (hfnb : 0 < fnb) (hn : n = min buf (st.fileLen - st.pos))
    (hnz : n ≠ 0) (hmod : n % fnb ≠ 0) :
    on_data st fnb buf = Except.ok (0,
      { st with pos := st.pos + n, readerOpen := false, alwaysReturn0 := true }) := by
  unfold on_data fill_data
  rw [h0, h1]
  simp [← hn, hmod]

/-- Witness for C2: 10 bytes remain, frame size 4, buffer 16: the read
returns 10 bytes, `10 % 4 ≠ 0`, so zero frames are reported, the reader is
closed and the terminal flag is set. -/
theorem trailing_short_block_witness :
    on_data ⟨false, true, 4, 0, 10, true⟩ 4 16 =
      Except.ok (0, ⟨true, true, 4, 10, 10, false⟩) :=
  trailing_short_block ⟨false, true, 4, 0, 10, true⟩ 4 16 10
    (by decide) (by decide) (by decide) (by decide) (by decide) (by decide)

/-- C3: a fill call in the streaming state whose data read returns `n` bytes
with `n` an exact multiple of `frame_nbyte` (including `n = 0`) reports
exactly `n / frame_nbyte` frames and only advances the read position: the
reader stays open, the terminal flag stays unset and the header flag is
unchanged, so the stream remains in the streaming state. -/
theorem whole_frames_streaming (st : StreamState) (fnb buf n : Nat)
    (h0 : st.alwaysReturn0 = false) (h1 : st.alreadyReadHeader = true)
    (hfnb : 0 < fnb) (hn : n = min buf (st.fileLen - st.pos))
    (hmod : n % fnb = 0) :
    on_data st fnb buf = Except.ok (n / fnb, { st with pos := st.pos + n }) := by
  unfold on_data fill_data
  rw [h0, h1]
  simp [← hn, hmod]

/-- Witness for C3: 12 bytes remain, frame size 4, buffer 8: the read
returns 8 bytes and the call reports 2 frames with the stream left in the
streaming state. -/
theorem whole_frames_streaming_witness :
    on_data ⟨false, true, 4, 0, 12, true⟩ 4 8 =
      Except.ok (2, ⟨false, true, 4, 8, 12, true⟩) :=
  whole_frames_streaming ⟨false, true, 4, 0, 12, true⟩ 4 8 8
    (by decide) (by decide) (by decide) (by decide) (by decide)

/-- C4 (amended): the header-skip logic of `on_data` (lines 83-91) runs only
when `already_read_header` is false.  In that state, with a nonempty header
buffer: if no bytes remain the call reports zero frames with the state
unchanged (the stream is at end of file, so later calls also report zero; no
terminal flag is set); if fewer bytes remain than the header length the call
fails with the modelled `IOError`; and if at least the header length remains
the call consumes exactly `headerBufLen` bytes and then performs the normal
data fill.  A sequence-start announcement does NOT produce this state: it
sets `already_read_header` to true, so the first fill after it reads data
immediately (see the counterexample). -/
theorem header_skip_branch (st : StreamState) (fnb buf : Nat)
    (h0 : st.alwaysReturn0 = false) (h1 : st.alreadyReadHeader = false)
    (hh : 0 < st.headerBufLen) :
    (st.fileLen ≤ st.pos → on_data st fnb buf = Except.ok (0, st)) ∧
    (0 < st.fileLen - st.pos → st.fileLen - st.pos < st.headerBufLen →
      on_data st fnb buf = Except.error PyErr.ioTruncated) ∧
    (st.headerBufLen ≤ st.fileLen - st.pos →
      on_data st fnb buf =
        fill_data { st with pos := st.pos + st.headerBufLen } fnb buf) := by
  obtain ⟨a0, arh, hbl, p, fl, ro⟩ := st
  simp only at h0 h1 hh
  subst h0
  subst h1
  refine ⟨fun hle => ?_, fun hpos2 hlt => ?_, fun hge => ?_⟩
  · unfold on_data
    simp [Nat.sub_eq_zero_of_le hle]
  · unfold on_data
    rw [Nat.min_eq_right (le_of_lt hlt)]
    simp [Nat.pos_iff_ne_zero.mp hpos2, hlt]
  · unfold on_data
    rw [Nat.min_eq_left hge]
    simp [Nat.pos_iff_ne_zero.mp hh, Nat.lt_irrefl]

/-- Witness for C4 (amended): a pending-skip state with a 4-byte header
buffer but only 2 bytes left in the file fails with the truncation error. -/
theorem header_skip_branch_witness :
    on_data ⟨false, false, 4, 0, 2, true⟩ 3 5 = Except.error PyErr.ioTruncated :=
  (header_skip_branch ⟨false, false, 4, 0, 2, true⟩ 3 5 rfl rfl (by decide)).2.1
    (by decide) (by decide)

/-- C4 counterexample: after a sequence-start announcement (which leaves
`already_read_header = true` and the read position just past the 4-byte
header, with 8 data bytes remaining), the very next fill call with frame
size 4 and an 8-byte buffer reads all 8 remaining bytes as data and reports
2 frames.  Had it first re-read and discarded `header_size = 4` bytes as the
claim states, only `(12 - 4 - 4) / 4 = 1` frame could have been reported. -/
theorem first_fill_does_not_skip_cex :
    (on_sequence hdrC4 4 "f" ⟨false, false, 0, 0, 12, true⟩).map Prod.snd =
      Except.ok ⟨false, true, 4, 4, 12, true⟩ ∧
    on_data ⟨false, true, 4, 4, 12, true⟩ 4 8 =
      Except.ok (2, ⟨false, true, 4, 12, 12, true⟩) ∧
    (2 : Nat) ≠ (12 - 4 - 4) / 4 := by
  refine ⟨?_, by decide, by decide⟩
  rw [on_sequence_eq_ok hdrC4 4 "f" ⟨false, false, 0, 0, 12, true⟩ 180
    (by decide) (by decide) (by decide) (by decide) (by decide) rfl]
  rfl

/-- C5 counterexample: `hdrC5` has every required key and the valid
`NBITS = 8`, yet its derivation fails — with the modelled `TypeError` from
`get_with_default(ihdr, 'RA') * (24./360.)`, because `RA` is absent — so
"derivation never fails" and "fails with MalformedHeader iff NBITS is
invalid as the only failure" do not hold as stated. -/
theorem valid_nbits_still_fails_cex :
    hdrC5.NBITS ∈ ([4, 8, 16, 32, 64] : List ℚ) ∧
    on_sequence hdrC5 4 "f" ⟨false, false, 0, 0, 12, true⟩ =
      Except.error PyErr.typeError := by
  refine ⟨by decide, ?_⟩
  exact on_sequence_eq_typeError hdrC5 4 "f" ⟨false, false, 0, 0, 12, true⟩
    (by decide) (by decide) (by decide) (by decide) (by decide) rfl

/-- C5 (amended): for a header with all required keys, a present `RA`, and
nonzero `OBSNCHAN`, `OBSBW`, `NTIME` and `BLOCSIZE` (the divisors of the
derivation), sequence-start derivation fails with the modelled
`MalformedHeader` if and only if `NBITS` is not in 4, 8, 16, 32, 64; and
when `NBITS` is in that set the derivation succeeds and the produced tensor
descriptor has shape, labels, scales and units lists all of length 4. -/
theorem malformed_iff_bad_nbits (h : RawHeader) (hs : Nat) (sn : String)
    (st : StreamState) (r : ℚ)
    (hnchan : h.OBSNCHAN ≠ 0) (hbw : h.OBSBW ≠ 0) (hntime : h.NTIME ≠ 0)
    (hbloc : h.BLOCSIZE ≠ 0) (hra : h.RA = some r) :
    (on_sequence h hs sn st = Except.error PyErr.malformedHeader ↔
      h.NBITS ∉ ([4, 8, 16, 32, 64] : List ℚ)) ∧
    (h.NBITS ∈ ([4, 8, 16, 32, 64] : List ℚ) →
      (on_sequence h hs sn st).map
        (fun p => (p.1.tensor.shape.length, p.1.tensor.labels.length,
          p.1.tensor.scales.length, p.1.tensor.units.length)) =
      Except.ok (4, 4, 4, 4)) := by
  by_cases hmem : h.NBITS ∈ ([4, 8, 16, 32, 64] : List ℚ)
  · rw [on_sequence_eq_ok h hs sn st r hmem hnchan hbw hntime hbloc hra]
    refine ⟨⟨fun hcon => Except.noConfusion hcon, fun hcon => absurd hmem hcon⟩,
      fun _ => rfl⟩
  · rw [on_sequence_eq_malformed h hs sn st hmem]
    exact ⟨⟨fun _ => hmem, fun _ => rfl⟩, fun hcon => absurd hcon hmem⟩

/-- Witness for C5 (amended): the concrete valid header derives successfully
with all four descriptor lists of length 4. -/
theorem malformed_iff_bad_nbits_witness :
    (on_sequence hdrC4 4 "f" ⟨false, false, 0, 0, 12, true⟩).map
      (fun p => (p.1.tensor.shape.length, p.1.tensor.labels.length,
        p.1.tensor.scales.length, p.1.tensor.units.length)) =
      Except.ok (4, 4, 4, 4) :=
  (malformed_iff_bad_nbits hdrC4 4 "f" ⟨false, false, 0, 0, 12, true⟩ 180
    (by decide) (by decide) (by decide) (by decide) rfl).2 (by decide)

/-- C7 counterexample: in `hdrC5` the key `RA` is absent and so are all the
other pointing fields (`AZ`, `ZA`, `DEC`), yet derivation fails (with the
modelled `TypeError`) instead of emitting a null right ascension — refuting
both "any absent optional key (including RA) yields a null value rather than
a failure" and "fails only if RA is absent while other pointing fields are
present". -/
theorem absent_ra_no_pointing_still_fails_cex :
    hdrC5.AZ = none ∧ hdrC5.ZA = none ∧ hdrC5.DEC = none ∧ hdrC5.RA = none ∧
    on_sequence hdrC5 4 "f" ⟨false, false, 0, 0, 12, true⟩ =
      Except.error PyErr.typeError := by
  refine ⟨rfl, rfl, rfl, rfl, ?_⟩
  exact on_sequence_eq_typeError hdrC5 4 "f" ⟨false, false, 0, 0, 12, true⟩
    (by decide) (by decide) (by decide) (by decide) (by decide) rfl

/-- C7 (amended): for a header with valid `NBITS` and nonzero derivation
divisors, derivation fails with the modelled `TypeError` if and only if `RA`
is absent — regardless of the other pointing fields; when `RA = r` is
present the emitted header carries `raj = r * 24/360` (decimal degrees
rescaled to decimal hours) and passes the optional keys `AZ`, `ZA`, `DEC`,
`SRC_NAME`, `CHAN_DM`, `TELESCOP`, `BACKEND` through unchanged, any absent
one yielding a null value rather than a failure. -/
theorem side_metadata_defaulting (h : RawHeader) (hs : Nat) (sn : String)
    (st : StreamState)
    (hmem : h.NBITS ∈ ([4, 8, 16, 32, 64] : List ℚ))
    (hnchan : h.OBSNCHAN ≠ 0) (hbw : h.OBSBW ≠ 0) (hntime : h.NTIME ≠ 0)
    (hbloc : h.BLOCSIZE ≠ 0) :
    (on_sequence h hs sn st = Except.error PyErr.typeError ↔ h.RA = none) ∧
    (∀ r, h.RA = some r →
      (on_sequence h hs sn st).map
        (fun p => (p.1.raj, p.1.az_start, p.1.za_start, p.1.dej,
          p.1.source_name, p.1.refdm, p.1.telescope, p.1.machine)) =
      Except.ok (r * (24 / 360), h.AZ, h.ZA, h.DEC, h.SRC_NAME, h.CHAN_DM,
        h.TELESCOP, h.BACKEND)) := by
  rcases hra : h.RA with _ | r
  · rw [on_sequence_eq_typeError h hs sn st hmem hnchan hbw hntime hbloc hra]
    exact ⟨⟨fun _ => rfl, fun _ => rfl⟩, fun r2 hr2 => Option.noConfusion hr2⟩
  · rw [on_sequence_eq_ok h hs sn st r hmem hnchan hbw hntime hbloc hra]
    refine ⟨⟨fun hcon => Except.noConfusion hcon,
      fun hcon => Option.noConfusion hcon⟩, fun r2 hr2 => ?_⟩
    injection hr2 with he
    subst he
    rfl

/-- Witness for C7 (amended): the concrete valid header with `RA = 180`
emits `raj = 180 * 24/360` and null side metadata for its absent optional
keys. -/
theorem side_metadata_defaulting_witness :
    (on_sequence hdrC4 4 "f" ⟨false, false, 0, 0, 12, true⟩).map
      (fun p => (p.1.raj, p.1.az_start, p.1.za_start, p.1.dej,
        p.1.source_name, p.1.refdm, p.1.telescope, p.1.machine)) =
      Except.ok (180 * (24 / 360), hdrC4.AZ, hdrC4.ZA, hdrC4.DEC,
        hdrC4.SRC_NAME, hdrC4.CHAN_DM, hdrC4.TELESCOP, hdrC4.BACKEND) :=
  (side_metadata_defaulting hdrC4 4 "f" ⟨false, false, 0, 0, 12, true⟩
    (by decide) (by decide) (by decide) (by decide) (by decide)).2 180 rfl

/-- C6: for a header with the required numeric keys (channel and fine-time
counts positive, bandwidth and block size nonzero, `RA` present so that
derivation completes) and valid `NBITS`, the derived descriptor has shape
`[-1, OBSNCHAN, NTIME, NPOL]`; its frequency-axis scale is `(f0, df)` with
`df = OBSBW / OBSNCHAN` (negative exactly when `OBSBW` is, preserved
unnormalized) and `f0 = OBSFREQ - 0.5*(OBSNCHAN-1)*df`; its fine-time scale
is `(0, dt)` with `dt = 1/df/1e6`; its leading time-axis scale is
`(tstart_unix, abs(dt)*NTIME)` whose step is nonnegative regardless of the
sign of `dt`; and the emitted time tag is `round(tstart_unix * 2^32)` with
`tstart_unix = (STT_IMJD + (STT_SMJD + offset_s)/86400 - 40587) * 86400` and
`offset_s = PKTIDX*PKTSIZE / ((BLOCSIZE/NTIME)/dt)`. -/
theorem derived_descriptor_formulas (h : RawHeader) (hs : Nat) (sn : String)
    (st : StreamState) (r : ℚ)
    (hmem : h.NBITS ∈ ([4, 8, 16, 32, 64] : List ℚ))
    (hnchan : 0 < h.OBSNCHAN) (hbw : h.OBSBW ≠ 0) (hntime : 0 < h.NTIME)
    (hbloc : h.BLOCSIZE ≠ 0) (hra : h.RA = some r) :
    (on_sequence h hs sn st).map
      (fun p => (p.1.tensor.shape, p.1.tensor.scales, p.1.time_tag)) =
      Except.ok ([-1, h.OBSNCHAN, h.NTIME, h.NPOL],
        [some (tstart_unix h, |dt_s h| * h.NTIME),
         some (f0_MHz h, df_MHz h),
         some (0, dt_s h),
         none],
        pyRound ((h.STT_IMJD + (h.STT_SMJD +
            h.PKTIDX * h.PKTSIZE / (h.BLOCSIZE / h.NTIME / dt_s h)) / 86400
          - 40587) * 86400 * 2 ^ 32)) ∧
    df_MHz h = h.OBSBW / h.OBSNCHAN ∧
    f0_MHz h = h.OBSFREQ - (1 / 2) * (h.OBSNCHAN - 1) * df_MHz h ∧
    dt_s h = 1 / df_MHz h / 1000000 ∧
    (df_MHz h < 0 ↔ h.OBSBW < 0) ∧
    0 ≤ |dt_s h| * h.NTIME := by
  rw [on_sequence_eq_ok h hs sn st r hmem (ne_of_gt hnchan) hbw
    (ne_of_gt hntime) hbloc hra]
  refine ⟨rfl, rfl, rfl, rfl, ?_, mul_nonneg (abs_nonneg _) (le_of_lt hntime)⟩
  unfold df_MHz
  rw [div_lt_iff hnchan, zero_mul]

/-- Witness for C6: the formulas hold at the concrete valid header. -/
theorem derived_descriptor_formulas_witness :
    (on_sequence hdrC4 4 "f" ⟨false, false, 0, 0, 12, true⟩).map
      (fun p => (p.1.tensor.shape, p.1.tensor.scales, p.1.time_tag)) =
      Except.ok ([-1, hdrC4.OBSNCHAN, hdrC4.NTIME, hdrC4.NPOL],
        [some (tstart_unix hdrC4, |dt_s hdrC4| * hdrC4.NTIME),
         some (f0_MHz hdrC4, df_MHz hdrC4),
         some (0, dt_s hdrC4),
         none],
        pyRound ((hdrC4.STT_IMJD + (hdrC4.STT_SMJD +
            hdrC4.PKTIDX * hdrC4.PKTSIZE /
              (hdrC4.BLOCSIZE / hdrC4.NTIME / dt_s hdrC4)) / 86400
          - 40587) * 86400 * 2 ^ 32)) ∧
    df_MHz hdrC4 = hdrC4.OBSBW / hdrC4.OBSNCHAN ∧
    f0_MHz hdrC4 = hdrC4.OBSFREQ - (1 / 2) * (hdrC4.OBSNCHAN - 1) * df_MHz hdrC4 ∧
    dt_s hdrC4 = 1 / df_MHz hdrC4 / 1000000 ∧
    (df_MHz hdrC4 < 0 ↔ hdrC4.OBSBW < 0) ∧
    0 ≤ |dt_s hdrC4| * hdrC4.NTIME :=
  derived_descriptor_formulas hdrC4 4 "f" ⟨false, false, 0, 0, 12, true⟩ 180
    (by decide) (by decide) (by decide) (by decide) (by decide) rfl

/-- C10: the `'_tensor'` descriptor and `time_tag` emitted at sequence start
are a function of the eleven numeric keys alone: two parsed headers agreeing
on `NBITS`, `OBSNCHAN`, `OBSBW`, `OBSFREQ`, `PKTIDX`, `PKTSIZE`, `BLOCSIZE`,
`NTIME`, `NPOL`, `STT_IMJD` and `STT_SMJD` (each with `RA` present so a
header is emitted at all, and with the derivation divisors nonzero) emit
identical `'_tensor'` and `time_tag` values, regardless of the values of all
other keys and of the header size, source name and prior stream state. -/
theorem tensor_time_tag_determined (h1 h2 : RawHeader) (hs1 hs2 : Nat)
    (sn1 sn2 : String) (s1 s2 : StreamState) (r1 r2 : ℚ)
    (eNB : h1.NBITS = h2.NBITS) (eNC : h1.OBSNCHAN = h2.OBSNCHAN)
    (eBW : h1.OBSBW = h2.OBSBW) (eFR : h1.OBSFREQ = h2.OBSFREQ)
    (ePI : h1.PKTIDX = h2.PKTIDX) (ePS : h1.PKTSIZE = h2.PKTSIZE)
    (eBL : h1.BLOCSIZE = h2.BLOCSIZE) (eNT : h1.NTIME = h2.NTIME)
    (eNP : h1.NPOL = h2.NPOL) (eIM : h1.STT_IMJD = h2.STT_IMJD)
    (eSM : h1.STT_SMJD = h2.STT_SMJD)
    (hmem : h1.NBITS ∈ ([4, 8, 16, 32, 64] : List ℚ))
    (hnchan : h1.OBSNCHAN ≠ 0) (hbw : h1.OBSBW ≠ 0) (hntime : h1.NTIME ≠ 0)
    (hbloc : h1.BLOCSIZE ≠ 0) (hra1 : h1.RA = some r1) (hra2 : h2.RA = some r2) :
    (on_sequence h1 hs1 sn1 s1).map (fun p => (p.1.tensor, p.1.time_tag)) =
      Except.ok (derive_tensor h1, time_tag h1) ∧
    (on_sequence h2 hs2 sn2 s2).map (fun p => (p.1.tensor, p.1.time_tag)) =
      Except.ok (derive_tensor h1, time_tag h1) := by
  have heq : derive_tensor h2 = derive_tensor h1 ∧ time_tag h2 = time_tag h1 := by
    simp only [derive_tensor, time_tag, ciDtype, tstart_unix, tstart_mjd,
      offset_secs, bytes_per_sec, frame_nbyte_q, byte_offset, dt_s, df_MHz,
      f0_MHz, mjd2unix]
    rw [eNB, eNC, eBW, eFR, ePI, ePS, eBL, eNT, eNP, eIM, eSM]
    exact ⟨rfl, rfl⟩
  rw [on_sequence_eq_ok h1 hs1 sn1 s1 r1 hmem hnchan hbw hntime hbloc hra1,
    on_sequence_eq_ok h2 hs2 sn2 s2 r2 (eNB ▸ hmem) (eNC ▸ hnchan) (eBW ▸ hbw)
      (eNT ▸ hntime) (eBL ▸ hbloc) hra2]
  refine ⟨rfl, ?_⟩
  show Except.ok (derive_tensor h2, time_tag h2) = _
  rw [heq.1, heq.2]

/-- Witness for C10: `hdrC4` and `hdrC10` agree on the eleven numeric keys
and differ in `RA`, `AZ` and `SRC_NAME`, yet emit the same tensor and time
tag, under different header sizes, source names and stream states. -/
theorem tensor_time_tag_determined_witness :
    (on_sequence hdrC4 4 "f" ⟨false, false, 0, 0, 12, true⟩).map
      (fun p => (p.1.tensor, p.1.time_tag)) =
      Except.ok (derive_tensor hdrC4, time_tag hdrC4) ∧
    (on_sequence hdrC10 7 "g" ⟨false, false, 0, 0, 20, true⟩).map
      (fun p => (p.1.tensor, p.1.time_tag)) =
      Except.ok (derive_tensor hdrC4, time_tag hdrC4) :=
  tensor_time_tag_determined hdrC4 hdrC10 4 7 "f" "g"
    ⟨false, false, 0, 0, 12, true⟩ ⟨false, false, 0, 0, 20, true⟩ 180 90
    rfl rfl rfl rfl rfl rfl rfl rfl rfl rfl rfl
    (by decide) (by decide) (by decide) (by decide) (by decide) rfl rfl

/-- C8: for an input tensor sequence whose sliced (polarization-like) axis,
index 3, has extent 2 in shape `[s0, 2, 4, 2]`, the transform's output
header is a copy of the input header — every header field and every other
tensor field unchanged — with that axis's extent set to 1 (shape
`[s0, 2, 4, 1]`); and with an output span of shape `(N, 2, 4, 1)` matching
the input shape with that axis set to 1, the written output data is an
element-wise copy of the input's index-0 slice along axis 3 at every other
index combination. -/
theorem axis_slice_transform (ih : OHdr) (s0 : ℚ) (N : Nat)
    (idata odata : Nat → Nat → Nat → Nat → ℤ)
    (hshape : ih.tensor.shape = [s0, 2, 4, 2]) :
    (grabFirst_on_sequence ih).tensor.shape = [s0, 2, 4, 1] ∧
    ((grabFirst_on_sequence ih).tensor.dtype = ih.tensor.dtype ∧
      (grabFirst_on_sequence ih).tensor.labels = ih.tensor.labels ∧
      (grabFirst_on_sequence ih).tensor.scales = ih.tensor.scales ∧
      (grabFirst_on_sequence ih).tensor.units = ih.tensor.units) ∧
    ((grabFirst_on_sequence ih).az_start = ih.az_start ∧
      (grabFirst_on_sequence ih).za_start = ih.za_start ∧
      (grabFirst_on_sequence ih).raj = ih.raj ∧
      (grabFirst_on_sequence ih).dej = ih.dej ∧
      (grabFirst_on_sequence ih).source_name = ih.source_name ∧
      (grabFirst_on_sequence ih).refdm = ih.refdm ∧
      (grabFirst_on_sequence ih).refdm_units = ih.refdm_units ∧
      (grabFirst_on_sequence ih).telescope = ih.telescope ∧
      (grabFirst_on_sequence ih).machine = ih.machine ∧
      (grabFirst_on_sequence ih).rawdatafile = ih.rawdatafile ∧
      (grabFirst_on_sequence ih).coord_frame = ih.coord_frame ∧
      (grabFirst_on_sequence ih).time_tag = ih.time_tag ∧
      (grabFirst_on_sequence ih).name = ih.name) ∧
    ∀ n c t, n < N → c < 2 → t < 4 →
      grabFirst_on_data (N, 2, 4, 1) idata odata n c t 0 = idata n c t 0 := by
  refine ⟨?_, ⟨rfl, rfl, rfl, rfl⟩,
    ⟨rfl, rfl, rfl, rfl, rfl, rfl, rfl, rfl, rfl, rfl, rfl, rfl, rfl⟩, ?_⟩
  · show ih.tensor.shape.set 3 1 = [s0, 2, 4, 1]
    rw [hshape]
    rfl
  · intro n c t hn hc ht
    show (if n < N ∧ c < 2 ∧ t < 4 ∧ 0 < 1 then idata n c t 0 else odata n c t 0)
      = idata n c t 0
    rw [if_pos ⟨hn, hc, ht, Nat.zero_lt_one⟩]

/-- Witness for C8: at the concrete header and spans, the output shape is
`[5, 2, 4, 1]` and the element at index `(1, 1, 3, 0)` is copied from the
input. -/
theorem axis_slice_transform_witness :
    (grabFirst_on_sequence ihdrC8).tensor.shape = [5, 2, 4, 1] ∧
    grabFirst_on_data (3, 2, 4, 1) (fun i j k l => (i + j + k + l : ℤ))
      (fun _ _ _ _ => 0) 1 1 3 0 =
      (fun i j k l => (i + j + k + l : ℤ)) 1 1 3 0 :=
  ⟨(axis_slice_transform ihdrC8 5 3 (fun i j k l => (i + j + k + l : ℤ))
      (fun _ _ _ _ => 0) rfl).1,
    (axis_slice_transform ihdrC8 5 3 (fun i j k l => (i + j + k + l : ℤ))
      (fun _ _ _ _ => 0) rfl).2.2.2 1 1 3 (by decide) (by decide) (by decide)⟩

/-- C9: the transform's header derivation never mutates the input sequence
header: because line 118 takes a deep copy, the shape mutation at line 119
is applied to a freshly allocated tensor object, so after `on_sequence` the
input header's tensor object is unchanged, the output header references a
different object, and that object equals the input's tensor with its shape
entry at index 3 set to 1. -/
theorem deepcopy_preserves_input (hp : List Tensor) (ih : Nat)
    (hih : ih < hp.length) :
    (grabFirst_on_sequence_heap hp ih).1.getD ih dfltTensor =
      hp.getD ih dfltTensor ∧
    (grabFirst_on_sequence_heap hp ih).2 ≠ ih ∧
    (grabFirst_on_sequence_heap hp ih).1.getD
        (grabFirst_on_sequence_heap hp ih).2 dfltTensor =
      { hp.getD ih dfltTensor with
        shape := (hp.getD ih dfltTensor).shape.set 3 1 } := by
  have hne : hp.length ≠ ih := Nat.ne_of_gt hih
  have hx : (hp ++ [hp.getD ih dfltTensor]).getD hp.length dfltTensor
      = hp.getD ih dfltTensor := by
    rw [List.getD_eq_getElem?_getD, List.getElem?_concat_length]
    rfl
  have hlen : hp.length < (hp ++ [hp.getD ih dfltTensor]).length := by
    simp
  refine ⟨?_, hne, ?_⟩
  · show ((hp ++ [hp.getD ih dfltTensor]).set hp.length _).getD ih dfltTensor
      = hp.getD ih dfltTensor
    rw [List.getD_eq_getElem?_getD, List.getElem?_set_ne hne,
      List.getElem?_append_left hih, ← List.getD_eq_getElem?_getD]
  · show ((hp ++ [hp.getD ih dfltTensor]).set hp.length
        { (hp ++ [hp.getD ih dfltTensor]).getD hp.length dfltTensor with
          shape := ((hp ++ [hp.getD ih dfltTensor]).getD hp.length
            dfltTensor).shape.set 3 1 }).getD hp.length dfltTensor = _
    rw [hx, List.getD_eq_getElem?_getD, List.getElem?_set_self hlen]
    rfl

/-- Witness for C9: a one-object store; after the transform the input
object at address 0 is unchanged and the copy at the fresh address has its
shape's index-3 entry set to 1. -/
theorem deepcopy_preserves_input_witness :
    (grabFirst_on_sequence_heap [tC9] 0).1.getD 0 dfltTensor =
      [tC9].getD 0 dfltTensor ∧
    (grabFirst_on_sequence_heap [tC9] 0).2 ≠ 0 ∧
    (grabFirst_on_sequence_heap [tC9] 0).1.getD
        (grabFirst_on_sequence_heap [tC9] 0).2 dfltTensor =
      { [tC9].getD 0 dfltTensor with
        shape := ([tC9].getD 0 dfltTensor).shape.set 3 1 } :=
  deepcopy_preserves_input [tC9] 0 (by decide)
